import Mathlib

/-!
Verification of the chatbot frontend service layer and the spec-level
retrieval index.  The definitions below are shallow embeddings of the
JavaScript sources: `chatService.js` (sendMessage, formatChatHistory,
getAvailableModels), `ChatInterface.js` (handleSendMessage),
`MessageInput.js` (handleSend), `Sidebar.js` (SettingsPanel) and the
`Message` renderer.  Network effects are modelled by an explicit outcome
value passed to the function and by a returned trace of issued requests.
-/

namespace Chatbot

/-- A source attribution attached to a bot message, as the renderer reads
it (`source.title`, `source.url`). -/
structure Source where
  title : Option String
  url : String
  deriving DecidableEq, Repr

/-- The message types the UI builds (the `type` field of a message). -/
inductive MsgType where
  | user
  | bot
  | error
  | processing
  deriving DecidableEq, Repr

/-- A chat message as the UI stores it.  `sources` is `none` when the
object was built without a `sources` key. -/
structure UIMessage where
  id : ℚ
  type : MsgType
  content : String
  sources : Option (List Source)
  timestamp : String
  deriving DecidableEq, Repr

/-- One entry of the `chat_history` list sent to the backend
(`formatChatHistory` output). -/
structure ConversationTurn where
  role : String
  content : String
  timestamp : String
  deriving DecidableEq, Repr

/-- The UI settings object (`App` state, edited by `SettingsPanel`). -/
structure Settings where
  model : String
  temperature : ℚ
  maxTokens : ℤ
  enableRAG : Bool
  deriving DecidableEq, Repr

/-- The `settings` sub-object of the request payload built in
`sendMessage`. -/
structure PayloadSettings where
  model : String
  temperature : ℚ
  max_tokens : ℤ
  enable_rag : Bool
  deriving DecidableEq, Repr

/-- The request payload `sendMessage` posts to `/api/chat`. -/
structure Payload where
  message : String
  chat_history : List ConversationTurn
  settings : PayloadSettings
  deriving DecidableEq, Repr

/-- Embeds `formatChatHistory` from `chatService.js`: maps every stored
message to a turn whose role is "user" exactly for user messages and
"assistant" otherwise, copying content and timestamp. -/
def formatChatHistory (chatHistory : List UIMessage) : List ConversationTurn :=
  chatHistory.map fun message =>
    { role := if message.type = MsgType.user then "user" else "assistant"
      content := message.content
      timestamp := message.timestamp }

/-- Embeds the payload construction in `sendMessage`. -/
def mkPayload (msg : String) (hist : List UIMessage) (st : Settings) : Payload :=
  { message := msg
    chat_history := formatChatHistory hist
    settings :=
      { model := st.model
        temperature := st.temperature
        max_tokens := st.maxTokens
        enable_rag := st.enableRAG } }

/-- The `data` object of a successful `/api/chat` response.  `sources`
and `metadata` are `none` when the backend omitted them. -/
structure ChatResponseData where
  response : String
  sources : Option (List Source)
  metadata : Option (List (String × String))
  deriving DecidableEq, Repr

/-- The `error.response` object of an axios error (server responded with
an error status).  `dataMessage` models `error.response.data?.message`. -/
structure ErrorResponse where
  statusText : String
  dataMessage : Option String
  deriving DecidableEq, Repr

/-- An axios error as `sendMessage` inspects it: its `code`, its
optional `response`, and whether a `request` object is present. -/
structure AxiosError where
  code : Option String
  response : Option ErrorResponse
  request : Bool
  deriving DecidableEq, Repr

/-- The outcome of the single `/api/chat` HTTP call. -/
inductive ChatOutcome where
  | success (data : ChatResponseData)
  | failure (e : AxiosError)
  deriving DecidableEq, Repr

/-- The object `sendMessage` returns on success. -/
structure ChatResult where
  content : String
  sources : List Source
  metadata : List (String × String)
  deriving DecidableEq, Repr

/-- JavaScript `a || b` on strings: the empty string is falsy. -/
def jsOrString (a b : String) : String :=
  if a = "" then b else a

/-- The timeout message thrown on `ECONNABORTED`. -/
def timeoutMsg : String :=
  "Request timed out. The AI is taking longer than expected to respond. Please try again."

/-- The message thrown when only `error.request` is present. -/
def networkMsg : String :=
  "Network error: Unable to connect to the server. Please check your connection."

/-- The message thrown for any other error. -/
def unexpectedMsg : String :=
  "An unexpected error occurred. Please try again."

/-- Embeds the catch-branch of `sendMessage`: the message of the error
thrown for each failure shape, in the order the code tests them. -/
def chatErrorMessage (e : AxiosError) : String :=
  if e.code = some "ECONNABORTED" then
    timeoutMsg
  else
    match e.response with
    | some r => "Server error: " ++ jsOrString (r.dataMessage.getD "") r.statusText
    | none => if e.request then networkMsg else unexpectedMsg

/-- Embeds `ChatService.sendMessage` response processing: on success it
returns `{content, sources || [], metadata || \x7b\x7d}`; on failure it
throws (modelled as `Except.error`) the human-readable message. -/
def sendMessage (o : ChatOutcome) : Except String ChatResult :=
  match o with
  | ChatOutcome.success d =>
      Except.ok
        { content := d.response
          sources := d.sources.getD []
          metadata := d.metadata.getD [] }
  | ChatOutcome.failure e => Except.error (chatErrorMessage e)

/-- Embeds a full `sendMessage` call including its effect trace: the
list of `(url, payload)` HTTP POSTs it issues (the body contains exactly
one `apiClient.post` and the catch-branch issues none), paired with the
returned or thrown value. -/
def sendMessageTraced (msg : String) (hist : List UIMessage) (st : Settings)
    (o : ChatOutcome) : List (String × Payload) × Except String ChatResult :=
  ([("/api/chat", mkPayload msg hist st)], sendMessage o)

/-- The whitespace characters `String.prototype.trim` removes: tab, line
feed, vertical tab, form feed, carriage return, the line terminators
U+2028/U+2029, the BOM U+FEFF, and every Unicode Space_Separator code
point (U+0020, U+00A0, U+1680, U+2000..U+200A, U+202F, U+205F,
U+3000). -/
def isJsWhitespace (c : Char) : Bool :=
  c.toNat = 9 || c.toNat = 10 || c.toNat = 11 || c.toNat = 12 || c.toNat = 13 ||
  c.toNat = 32 || c.toNat = 160 || c.toNat = 5760 ||
  (8192 ≤ c.toNat && c.toNat ≤ 8202) ||
  c.toNat = 8232 || c.toNat = 8233 || c.toNat = 8239 || c.toNat = 8287 ||
  c.toNat = 12288 || c.toNat = 65279

/-- JavaScript `s.trim()`: strip leading and trailing whitespace. -/
def jsTrim (s : String) : String :=
  String.mk (((s.data.dropWhile isJsWhitespace).reverse.dropWhile isJsWhitespace).reverse)

/-- Embeds `MessageInput.handleSend`: `onSend(value)` is invoked (result
`some value`) only when the trimmed value is truthy and the input is not
disabled; otherwise nothing happens (`none`). -/
def handleSend (value : String) (disabled : Bool) : Option String :=
  if jsTrim value = "" then none
  else if disabled then none
  else some value

/-- The generic text of the error message `handleSendMessage` appends on
failure. -/
def errorNoticeText : String :=
  "Sorry, I encountered an error. Please try again."

/-- What one `ChatInterface.handleSendMessage` call does: the messages
it appends to the chat history in order, the HTTP requests it issues,
the errors it logs via `console.error`, and the arguments of its
`setIsTyping` and `setIsLoading` calls in order (the loading state). -/
structure HandleResult where
  appended : List UIMessage
  requests : List (String × Payload)
  logs : List String
  setIsTypingCalls : List Bool
  setIsLoadingCalls : List Bool
  deriving DecidableEq, Repr

/-- Embeds `ChatInterface.handleSendMessage`: an untruthy trimmed
message returns immediately; otherwise it appends the user message and a
processing message, issues the chat request, and appends either the bot
response (with its sources) or the generic error message, logging the
thrown error. -/
def handleSendMessage (msg : String) (chatHistory : List UIMessage) (st : Settings)
    (now : ℚ) (ts : String) (o : ChatOutcome) : HandleResult :=
  if jsTrim msg = "" then ⟨[], [], [], [], []⟩
  else
    let userMessage : UIMessage := ⟨now, MsgType.user, msg, none, ts⟩
    let processingMessage : UIMessage :=
      ⟨now + 1/2, MsgType.processing, "Processing your request...", none, ts⟩
    let traced := sendMessageTraced msg chatHistory st o
    match traced.2 with
    | Except.ok r =>
        ⟨[userMessage, processingMessage,
          ⟨now + 1, MsgType.bot, r.content, some r.sources, ts⟩], traced.1, [],
          [true, false], [true, false]⟩
    | Except.error e =>
        ⟨[userMessage, processingMessage,
          ⟨now + 1, MsgType.error, errorNoticeText, none, ts⟩], traced.1, [e],
          [true, false], [true, false]⟩

/-- Embeds the sources-section guard of the `Message` renderer:
`type === bot && sources && sources.length > 0`. -/
def showsSources (m : UIMessage) : Bool :=
  decide (m.type = MsgType.bot) &&
    (match m.sources with
     | some s => decide (0 < s.length)
     | none => false)

/-- The model ids offered by the `SettingsPanel` select element. -/
def modelOptions : List String :=
  ["mistral:7b", "llama2:7b", "phi:2.7b"]

/-- The initial settings state of `App`. -/
def defaultSettings : Settings :=
  { model := "mistral:7b", temperature := 7/10, maxTokens := 1000, enableRAG := true }

/-- The settings values reachable through the UI: the initial defaults,
changed by the `SettingsPanel` controls — the model select, the
temperature slider (min 0, max 1, step 0.1, i.e. k/10 for k ≤ 10), the
max-tokens slider (min 100, max 2000, step 100), and the RAG toggle. -/
inductive ReachableSettings : Settings → Prop where
  | init : ReachableSettings defaultSettings
  | setModel (s : Settings) (m : String) (hs : ReachableSettings s)
      (hm : m ∈ modelOptions) : ReachableSettings { s with model := m }
  | setTemperature (s : Settings) (k : ℕ) (hs : ReachableSettings s)
      (hk : k ≤ 10) : ReachableSettings { s with temperature := (k : ℚ) / 10 }
  | setMaxTokens (s : Settings) (k : ℕ) (hs : ReachableSettings s)
      (hk : k ≤ 19) : ReachableSettings { s with maxTokens := 100 + 100 * (k : ℤ) }
  | toggleRAG (s : Settings) (hs : ReachableSettings s) :
      ReachableSettings { s with enableRAG := !s.enableRAG }

/-- One entry of the `/api/models` response list. -/
structure ModelInfo where
  id : String
  name : String
  deriving DecidableEq, Repr

/-- The outcome of the `/api/models` HTTP call. -/
inductive ModelsOutcome where
  | success (models : List ModelInfo)
  | failure (e : AxiosError)
  deriving DecidableEq, Repr

/-- The hard-coded fallback list in `getAvailableModels`. -/
def defaultModels : List ModelInfo :=
  [{ id := "phi:2.7b", name := "Phi-2.7B (Ollama)" },
   { id := "llama2:7b", name := "Llama2-7B (Ollama)" },
   { id := "mistral:7b", name := "Mistral-7B (Ollama)" }]

/-- Embeds `ChatService.getAvailableModels`: the backend list on
success, the fixed default list on any failure; it never throws. -/
def getAvailableModels (o : ModelsOutcome) : List ModelInfo :=
  match o with
  | ModelsOutcome.success ms => ms
  | ModelsOutcome.failure _ => defaultModels

/-- Modelled from the spec: one stored entry of the backend VectorIndex
(the backend implementation is not part of this repository). -/
structure IndexEntry where
  chunk_id : ℕ
  document_id : ℕ
  sequence_index : ℕ
  vector : List ℝ

/-- Modelled from the spec: a transient search result, a chunk entry
paired with its similarity score. -/
structure RetrievedChunk where
  entry : IndexEntry
  score : ℝ

/-- Modelled from the spec: the dot product of two vectors (missing
positions contribute nothing). -/
noncomputable def dotList (a b : List ℝ) : ℝ :=
  (List.zipWith (fun x y => x * y) a b).sum

/-- Modelled from the spec: cosine similarity
`(a . b) / (|a| * |b|)`, with score 0 when either vector has zero
norm (never divide by zero). -/
noncomputable def cosineSimilarity (a b : List ℝ) : ℝ :=
  if Real.sqrt (dotList a a) = 0 ∨ Real.sqrt (dotList b b) = 0 then 0
  else dotList a b / (Real.sqrt (dotList a a) * Real.sqrt (dotList b b))

/-- Modelled from the spec: the result ordering of `search` —
descending by score, ties broken by ascending `sequence_index` then
`chunk_id`. -/
def retrievedBefore (a b : RetrievedChunk) : Prop :=
  b.score < a.score ∨
    (a.score = b.score ∧
      (a.entry.sequence_index < b.entry.sequence_index ∨
        (a.entry.sequence_index = b.entry.sequence_index ∧
          a.entry.chunk_id ≤ b.entry.chunk_id)))

noncomputable instance : DecidableRel retrievedBefore :=
  fun _ _ => Classical.propDecidable _

instance : IsTotal RetrievedChunk retrievedBefore where
  total a b := by
    rcases lt_trichotomy a.score b.score with h | h | h
    · exact Or.inr (Or.inl h)
    · rcases lt_trichotomy a.entry.sequence_index b.entry.sequence_index with h2 | h2 | h2
      · exact Or.inl (Or.inr ⟨h, Or.inl h2⟩)
      · rcases le_total a.entry.chunk_id b.entry.chunk_id with h3 | h3
        · exact Or.inl (Or.inr ⟨h, Or.inr ⟨h2, h3⟩⟩)
        · exact Or.inr (Or.inr ⟨h.symm, Or.inr ⟨h2.symm, h3⟩⟩)
      · exact Or.inr (Or.inr ⟨h.symm, Or.inl h2⟩)
    · exact Or.inl (Or.inl h)

instance : IsTrans RetrievedChunk retrievedBefore where
  trans a b c hab hbc := by
    rcases hab with h1 | ⟨hs1, h1⟩
    · rcases hbc with h2 | ⟨hs2, _⟩
      · exact Or.inl (h2.trans h1)
      · exact Or.inl (by rw [← hs2]; exact h1)
    · rcases hbc with h2 | ⟨hs2, h2⟩
      · exact Or.inl (by rw [hs1]; exact h2)
      · refine Or.inr ⟨hs1.trans hs2, ?_⟩
        rcases h1 with hl1 | ⟨he1, hc1⟩
        · rcases h2 with hl2 | ⟨he2, _⟩
          · exact Or.inl (hl1.trans hl2)
          · exact Or.inl (by rw [← he2]; exact hl1)
        · rcases h2 with hl2 | ⟨he2, hc2⟩
          · exact Or.inl (by rw [he1]; exact hl2)
          · exact Or.inr ⟨he1.trans he2, hc1.trans hc2⟩

/-- Modelled from the spec: `VectorIndex.search` — the backend
implementation is not in the repository.  Per the spec it is a
brute-force scan over all entries computing cosine similarity against
the query vector, sorted descending (ties by ascending sequence index
then chunk id), truncated to `top_k`, then filtered to entries with
score at least `min_score`. -/
noncomputable def search (entries : List IndexEntry) (queryVector : List ℝ)
    (top_k : ℕ) (min_score : ℝ) : List RetrievedChunk :=
  ((((entries.map fun e =>
        ({ entry := e, score := cosineSimilarity queryVector e.vector } : RetrievedChunk))
      |>.insertionSort retrievedBefore).take top_k).filter
    fun rc => decide (min_score ≤ rc.score))

end Chatbot

namespace Chatbot

/-- C1: on success, `sendMessage` returns the backend response text as
`content` and a `sources` field that is the backend list when present
and `[]` when absent. -/
theorem sendMessage_success_content_sources (d : ChatResponseData) :
    ∃ r : ChatResult, sendMessage (ChatOutcome.success d) = Except.ok r ∧
      r.content = d.response ∧
      (∀ s : List Source, d.sources = some s → r.sources = s) ∧
      (d.sources = none → r.sources = []) := by
  refine ⟨_, rfl, rfl, ?_, ?_⟩
  · intro s hs
    simp [hs]
  · intro hs
    simp [hs]

/-- Witness for C1 at a concrete backend response with no sources. -/
theorem sendMessage_success_content_sources_witness :
    ∃ r : ChatResult,
      sendMessage (ChatOutcome.success ⟨"hi", none, none⟩) = Except.ok r ∧
      r.content = "hi" ∧
      (∀ s : List Source, (none : Option (List Source)) = some s → r.sources = s) ∧
      ((none : Option (List Source)) = none → r.sources = []) :=
  sendMessage_success_content_sources ⟨"hi", none, none⟩

/-- C2: every failure of the chat call makes `sendMessage` throw an
error whose message is nonempty, and a value is returned only on
success. -/
theorem sendMessage_failure_throws (e : AxiosError) :
    sendMessage (ChatOutcome.failure e) = Except.error (chatErrorMessage e) ∧
    0 < (chatErrorMessage e).length ∧
    (∀ o : ChatOutcome, ∀ r : ChatResult,
      sendMessage o = Except.ok r → ∃ d, o = ChatOutcome.success d) := by
  refine ⟨rfl, ?_, ?_⟩
  · unfold chatErrorMessage
    by_cases hc : e.code = some "ECONNABORTED"
    · simp only [hc, if_true, timeoutMsg]
      decide
    · simp only [hc, if_false]
      rcases hr : e.response with _ | r
      · by_cases hq : e.request
        · simp only [hq, if_true, networkMsg]
          decide
        · simp only [hq, if_false, unexpectedMsg]
          decide
      · simp only [String.length_append]
        have h2 : ("Server error: ").length = 14 := by decide
        omega
  · intro o r h
    match o with
    | ChatOutcome.success d => exact ⟨d, rfl⟩
    | ChatOutcome.failure e2 => simp [sendMessage] at h

/-- Witness for C2 at a concrete network error. -/
theorem sendMessage_failure_throws_witness :
    sendMessage (ChatOutcome.failure ⟨none, none, true⟩)
        = Except.error (chatErrorMessage ⟨none, none, true⟩) ∧
    0 < (chatErrorMessage ⟨none, none, true⟩).length ∧
    (∃ d, ChatOutcome.success ⟨"hi", none, none⟩ = ChatOutcome.success d) := by
  have h := sendMessage_failure_throws ⟨none, none, true⟩
  exact ⟨h.1, h.2.1, h.2.2 (ChatOutcome.success ⟨"hi", none, none⟩) ⟨"hi", [], []⟩ rfl⟩

/-- C5: `formatChatHistory` preserves length and order, maps the role to
"user" exactly for user-type messages and to "assistant" for every
other type, copies content and timestamp unchanged, and only ever emits
the roles "user" and "assistant". -/
theorem formatChatHistory_roles (h : List UIMessage) :
    (formatChatHistory h).length = h.length ∧
    List.Forall₂ (fun (m : UIMessage) (t : ConversationTurn) =>
      (t.role = "user" ↔ m.type = MsgType.user) ∧
      (m.type ≠ MsgType.user → t.role = "assistant") ∧
      t.content = m.content ∧ t.timestamp = m.timestamp ∧
      (t.role = "user" ∨ t.role = "assistant")) h (formatChatHistory h) := by
  refine ⟨by simp [formatChatHistory], ?_⟩
  unfold formatChatHistory
  induction h with
  | nil => exact List.Forall₂.nil
  | cons m rest ih =>
      simp only [List.map_cons]
      refine List.Forall₂.cons ?_ ih
      by_cases hm : m.type = MsgType.user
      · simp [hm]
      · simp [hm]

/-- Witness for C5 at a one-element history holding an error message. -/
theorem formatChatHistory_roles_witness :
    (formatChatHistory [⟨0, MsgType.error, "x", none, "t"⟩]).length
        = ([⟨0, MsgType.error, "x", none, "t"⟩] : List UIMessage).length ∧
    List.Forall₂ (fun (m : UIMessage) (t : ConversationTurn) =>
      (t.role = "user" ↔ m.type = MsgType.user) ∧
      (m.type ≠ MsgType.user → t.role = "assistant") ∧
      t.content = m.content ∧ t.timestamp = m.timestamp ∧
      (t.role = "user" ∨ t.role = "assistant"))
      [⟨0, MsgType.error, "x", none, "t"⟩]
      (formatChatHistory [⟨0, MsgType.error, "x", none, "t"⟩]) :=
  formatChatHistory_roles [⟨0, MsgType.error, "x", none, "t"⟩]

/-- C3: on a failed chat request every appended error-type message
carries no sources field, and the renderer shows a sources section only
for bot messages with nonempty sources, so never for error messages. -/
theorem error_message_never_shows_sources
    (msg : String) (hist : List UIMessage) (st : Settings) (now : ℚ) (ts : String)
    (e : AxiosError) (m : UIMessage) :
    (∀ m2 ∈ (handleSendMessage msg hist st now ts (ChatOutcome.failure e)).appended,
        m2.type = MsgType.error → m2.sources = none) ∧
    (m.type = MsgType.error → showsSources m = false) := by
  constructor
  · intro m2 hm2 _
    by_cases hmsg : jsTrim msg = ""
    · simp [handleSendMessage, hmsg] at hm2
    · simp [handleSendMessage, hmsg, sendMessageTraced, sendMessage] at hm2
      rcases hm2 with h | h | h <;> simp [h]
  · intro hm
    simp [showsSources, hm]

/-- Witness for C3 at a concrete failed request and a concrete error
message. -/
theorem error_message_never_shows_sources_witness :
    ((⟨1 + 1, MsgType.error, errorNoticeText, none, "t"⟩ : UIMessage).sources = none) ∧
    showsSources ⟨1 + 1, MsgType.error, errorNoticeText, none, "t"⟩ = false := by
  have h := error_message_never_shows_sources "hello" [] defaultSettings 1 "t"
    ⟨none, none, true⟩ ⟨1 + 1, MsgType.error, errorNoticeText, none, "t"⟩
  refine ⟨?_, h.2 rfl⟩
  refine h.1 ⟨1 + 1, MsgType.error, errorNoticeText, none, "t"⟩ ?_ rfl
  have hmsg : ¬ jsTrim "hello" = "" := by decide
  simp [handleSendMessage, hmsg, sendMessageTraced, sendMessage]

/-- C4: every `sendMessage` call issues exactly one HTTP POST, to
`/api/chat`, and a timed-out request (code ECONNABORTED) is surfaced as
the timeout error with no second request. -/
theorem sendMessage_single_post_no_retry (msg : String) (hist : List UIMessage)
    (st : Settings) (o : ChatOutcome) :
    (sendMessageTraced msg hist st o).1 = [("/api/chat", mkPayload msg hist st)] ∧
    (∀ e : AxiosError, e.code = some "ECONNABORTED" →
      (sendMessageTraced msg hist st (ChatOutcome.failure e)).2
        = Except.error timeoutMsg) := by
  refine ⟨rfl, ?_⟩
  intro e he
  simp [sendMessageTraced, sendMessage, chatErrorMessage, he]

/-- Witness for C4 at a concrete timed-out call. -/
theorem sendMessage_single_post_no_retry_witness :
    (sendMessageTraced "q" [] defaultSettings
        (ChatOutcome.failure ⟨some "ECONNABORTED", none, true⟩)).1
      = [("/api/chat", mkPayload "q" [] defaultSettings)] ∧
    (sendMessageTraced "q" [] defaultSettings
        (ChatOutcome.failure ⟨some "ECONNABORTED", none, true⟩)).2
      = Except.error timeoutMsg := by
  have h := sendMessage_single_post_no_retry "q" [] defaultSettings
    (ChatOutcome.failure ⟨some "ECONNABORTED", none, true⟩)
  exact ⟨h.1, h.2 ⟨some "ECONNABORTED", none, true⟩ rfl⟩

/-- Shared invariant: every settings value reachable through the UI has
temperature in [0,1] and positive maxTokens. -/
theorem settings_invariant_aux (s : Settings) (hs : ReachableSettings s) :
    0 ≤ s.temperature ∧ s.temperature ≤ 1 ∧ 0 < s.maxTokens := by
  induction hs with
  | init =>
      refine ⟨?_, ?_, ?_⟩ <;> norm_num [defaultSettings]
  | setModel s m hs hm ih => exact ih
  | setTemperature s k hs hk ih =>
      refine ⟨?_, ?_, ih.2.2⟩
      · show (0 : ℚ) ≤ (k : ℚ) / 10
        positivity
      · show (k : ℚ) / 10 ≤ 1
        rw [div_le_one (by norm_num)]
        exact_mod_cast hk
  | setMaxTokens s k hs hk ih =>
      refine ⟨ih.1, ih.2.1, ?_⟩
      show (0 : ℤ) < 100 + 100 * (k : ℤ)
      have hk0 : (0 : ℤ) ≤ (k : ℤ) := Int.ofNat_nonneg k
      omega
  | toggleRAG s hs ih => exact ih

/-- C6: for every settings value reachable through the UI, the settings
object put in the chat request payload has temperature in [0,1],
positive max_tokens, and a boolean enable_rag. -/
theorem payload_settings_in_bounds (s : Settings) (hs : ReachableSettings s)
    (msg : String) (hist : List UIMessage) :
    0 ≤ (mkPayload msg hist s).settings.temperature ∧
    (mkPayload msg hist s).settings.temperature ≤ 1 ∧
    0 < (mkPayload msg hist s).settings.max_tokens ∧
    ((mkPayload msg hist s).settings.enable_rag = false ∨
      (mkPayload msg hist s).settings.enable_rag = true) := by
  obtain ⟨h1, h2, h3⟩ := settings_invariant_aux s hs
  exact ⟨h1, h2, h3, (Bool.eq_false_or_eq_true s.enableRAG).symm⟩

/-- Witness for C6 at the initial default settings. -/
theorem payload_settings_in_bounds_witness :
    0 ≤ (mkPayload "" [] defaultSettings).settings.temperature ∧
    (mkPayload "" [] defaultSettings).settings.temperature ≤ 1 ∧
    0 < (mkPayload "" [] defaultSettings).settings.max_tokens ∧
    ((mkPayload "" [] defaultSettings).settings.enable_rag = false ∨
      (mkPayload "" [] defaultSettings).settings.enable_rag = true) :=
  payload_settings_in_bounds defaultSettings ReachableSettings.init "" []

/-- C7: on every failure of a sent (non-blank) message, the handler
appends exactly one error-type message, its text is the fixed generic
notice, no bot (answer) message is appended, and the thrown error is
logged. -/
theorem failure_appends_one_generic_error (msg : String) (hist : List UIMessage)
    (st : Settings) (now : ℚ) (ts : String) (e : AxiosError)
    (hmsg : ¬ jsTrim msg = "") :
    ((handleSendMessage msg hist st now ts (ChatOutcome.failure e)).appended.filter
        (fun m => decide (m.type = MsgType.error))).length = 1 ∧
    (∀ m ∈ (handleSendMessage msg hist st now ts (ChatOutcome.failure e)).appended,
        m.type = MsgType.error → m.content = errorNoticeText) ∧
    ((handleSendMessage msg hist st now ts (ChatOutcome.failure e)).appended.filter
        (fun m => decide (m.type = MsgType.bot))).length = 0 ∧
    (handleSendMessage msg hist st now ts (ChatOutcome.failure e)).logs
      = [chatErrorMessage e] := by
  refine ⟨?_, ?_, ?_, ?_⟩ <;>
    simp [handleSendMessage, hmsg, sendMessageTraced, sendMessage]

/-- Witness for C7 at a concrete failed request. -/
theorem failure_appends_one_generic_error_witness :
    ((handleSendMessage "hi" [] defaultSettings 2 "t"
        (ChatOutcome.failure ⟨none, some ⟨"Bad Gateway", none⟩, true⟩)).appended.filter
        (fun m => decide (m.type = MsgType.error))).length = 1 ∧
    (∀ m ∈ (handleSendMessage "hi" [] defaultSettings 2 "t"
        (ChatOutcome.failure ⟨none, some ⟨"Bad Gateway", none⟩, true⟩)).appended,
        m.type = MsgType.error → m.content = errorNoticeText) ∧
    ((handleSendMessage "hi" [] defaultSettings 2 "t"
        (ChatOutcome.failure ⟨none, some ⟨"Bad Gateway", none⟩, true⟩)).appended.filter
        (fun m => decide (m.type = MsgType.bot))).length = 0 ∧
    (handleSendMessage "hi" [] defaultSettings 2 "t"
        (ChatOutcome.failure ⟨none, some ⟨"Bad Gateway", none⟩, true⟩)).logs
      = [chatErrorMessage ⟨none, some ⟨"Bad Gateway", none⟩, true⟩] :=
  failure_appends_one_generic_error "hi" [] defaultSettings 2 "t"
    ⟨none, some ⟨"Bad Gateway", none⟩, true⟩ (by decide)

/-- C9: a whitespace-only (or empty) input is a no-op at both layers:
`handleSend` never invokes `onSend`, and `handleSendMessage` returns
before appending any message, issuing any request, logging, or touching
the typing/loading state. -/
theorem whitespace_message_noop (s : String) (disabled : Bool)
    (hist : List UIMessage) (st : Settings) (now : ℚ) (ts : String) (o : ChatOutcome)
    (hws : ∀ c ∈ s.data, isJsWhitespace c = true) :
    handleSend s disabled = none ∧
    handleSendMessage s hist st now ts o = ⟨[], [], [], [], []⟩ := by
  have h1 : s.data.dropWhile isJsWhitespace = [] :=
    List.dropWhile_eq_nil_iff.mpr hws
  have htrim : jsTrim s = "" := by
    simp [jsTrim, h1]
  exact ⟨by simp [handleSend, htrim], by simp [handleSendMessage, htrim]⟩

/-- Witness for C9 at an input of a space, an ideographic space U+3000
and an en quad U+2000. -/
theorem whitespace_message_noop_witness :
    handleSend " \u3000\u2000" false = none ∧
    handleSendMessage " \u3000\u2000" [] defaultSettings 0 ""
        (ChatOutcome.failure ⟨none, none, false⟩) = ⟨[], [], [], [], []⟩ :=
  whitespace_message_noop " \u3000\u2000" false [] defaultSettings 0 ""
    (ChatOutcome.failure ⟨none, none, false⟩) (by decide)

/-- C10: `getAvailableModels` is total (never throws): it returns the
backend list on success and exactly the fixed three-element default list
on any failure. -/
theorem getAvailableModels_never_throws (o : ModelsOutcome) :
    (∀ ms : List ModelInfo, o = ModelsOutcome.success ms → getAvailableModels o = ms) ∧
    (∀ e : AxiosError, o = ModelsOutcome.failure e →
      getAvailableModels o = defaultModels) ∧
    defaultModels.map ModelInfo.id = ["phi:2.7b", "llama2:7b", "mistral:7b"] ∧
    defaultModels.length = 3 := by
  refine ⟨?_, ?_, rfl, rfl⟩
  · intro ms h
    subst h
    rfl
  · intro e h
    subst h
    rfl

/-- Witness for C10 at a concrete failed models request. -/
theorem getAvailableModels_never_throws_witness :
    getAvailableModels (ModelsOutcome.failure ⟨none, none, false⟩) = defaultModels ∧
    defaultModels.map ModelInfo.id = ["phi:2.7b", "llama2:7b", "mistral:7b"] ∧
    defaultModels.length = 3 := by
  have h := getAvailableModels_never_throws (ModelsOutcome.failure ⟨none, none, false⟩)
  exact ⟨h.2.1 ⟨none, none, false⟩ rfl, h.2.2.1, h.2.2.2⟩

/-- C8: for every index state and query, `search` returns at most
`top_k` entries, with non-increasing similarity scores, and every
returned entry scores at least `min_score`. -/
theorem search_topk_sorted_minscore (entries : List IndexEntry)
    (queryVector : List ℝ) (k : ℕ) (ms : ℝ) :
    (search entries queryVector k ms).length ≤ k ∧
    List.Pairwise (fun a b => b.score ≤ a.score) (search entries queryVector k ms) ∧
    List.Forall (fun rc => ms ≤ rc.score) (search entries queryVector k ms) := by
  unfold search
  refine ⟨?_, ?_, ?_⟩
  · exact le_trans (List.length_filter_le _ _) (List.length_take_le _ _)
  · have hs : List.Pairwise retrievedBefore
        ((entries.map fun e =>
          ({ entry := e, score := cosineSimilarity queryVector e.vector }
            : RetrievedChunk)).insertionSort retrievedBefore) :=
      List.sorted_insertionSort retrievedBefore _
    have ht := List.Pairwise.sublist (List.take_sublist k _) hs
    have hf := List.Pairwise.sublist
      (@List.filter_sublist RetrievedChunk (fun rc => decide (ms ≤ rc.score))
        ((entries.map fun e =>
          ({ entry := e, score := cosineSimilarity queryVector e.vector }
            : RetrievedChunk)).insertionSort retrievedBefore |>.take k)) ht
    refine List.Pairwise.imp ?_ hf
    intro a b hab
    rcases hab with h | ⟨h, _⟩
    · exact le_of_lt h
    · exact le_of_eq h.symm
  · rw [List.forall_iff_forall_mem]
    intro rc hrc
    exact of_decide_eq_true (List.mem_filter.mp hrc).2

end Chatbot
